import Mathlib

/-
Verification development for the homelab-infrastructure repository.

Shallow embedding of the two reconcilers:
  * src/scripts/caddy-service-manager.py  (service classifier, config renderer,
    config validator, reconciliation cycle, manual add entry point)
  * src/configs/netbox/discovery-scripts/discovery-agent.py  (discovery cycle)

External collaborators (NetBox HTTP API, the caddy binary, the network
prober, the DNS server) are modelled as oracles: the values their calls
return during one cycle.  Pure string manipulation is embedded directly.
-/

/-- Python substring membership test `pat in s`, over explicit char lists. -/
def listContainsSubstr (pat : List Char) : List Char → Bool
  | [] => pat.isEmpty
  | c :: rest => pat.isPrefixOf (c :: rest) || listContainsSubstr pat rest

/-- Python `pat in s` on strings: `strContains s pat = true` iff `pat` occurs
as a contiguous substring of `s`. -/
def strContains (s pat : String) : Bool :=
  listContainsSubstr pat.toList s.toList

/-- Python `s.lower()` (ASCII-relevant part, via `Char.toLower`). -/
def strLower (s : String) : String :=
  String.mk (s.toList.map Char.toLower)

/-- Python `s.endswith(pat)`. -/
def strEndsWith (s pat : String) : Bool :=
  pat.toList.isSuffixOf s.toList

/-- Python `s.split(sep)[0]` for a single-character separator: the characters
up to the first occurrence of the separator (the whole string when the
separator is absent). -/
def takeUntilChar (sep : Char) : List Char → List Char
  | [] => []
  | c :: rest => if c = sep then [] else c :: takeUntilChar sep rest

/-- Python `s.replace('.', '_')` on single-character arguments. -/
def replaceDotsWithUnderscores (s : String) : String :=
  String.mk (s.toList.map (fun c => if c = '.' then '_' else c))

/-- Python `s.strip()`: drop whitespace at both ends. -/
def strTrim (s : String) : String :=
  String.mk
    (((s.toList.dropWhile Char.isWhitespace).reverse.dropWhile Char.isWhitespace).reverse)

/-- A value of the classifier's per-rule configuration: the dict literals in
`service_patterns` of `detect_services` (caddy-service-manager.py lines
175-185). -/
structure SvcConfig where
  port : Nat
  ty : String
  protocol : String
deriving Repr, DecidableEq

/-- The fixed ordered rule table `service_patterns` of `detect_services`
(caddy-service-manager.py lines 175-185), in Python dict insertion order. -/
def service_patterns : List (String × SvcConfig) :=
  [ ("gitlab", ⟨80, "web", "http"⟩),
    ("git", ⟨80, "web", "http"⟩),
    ("netbox", ⟨8080, "web", "http"⟩),
    ("ipam", ⟨8080, "web", "http"⟩),
    ("grafana", ⟨3000, "monitoring", "http"⟩),
    ("prometheus", ⟨9090, "monitoring", "http"⟩),
    ("api", ⟨8080, "api", "http"⟩),
    ("docs", ⟨8000, "docs", "http"⟩),
    ("admin", ⟨8080, "secure", "http"⟩) ]

/-- The `for pattern, config in service_patterns.items(): ... break` loop of
`detect_services` (lines 190-197): the first rule whose token is a substring
of the lowercased hostname, if any. -/
def firstMatch (hostname_lower : String) : List (String × SvcConfig) → Option SvcConfig
  | [] => none
  | (pat, cfg) :: rest =>
      if strContains hostname_lower pat then some cfg else firstMatch hostname_lower rest

/-- `detect_services(hostname, ip, custom_fields)` (caddy-service-manager.py
lines 170-207).  `ip` and `custom_fields` are accepted and ignored exactly as
in the source.  Falls back to the default web/port-80 entry when no pattern
matches (lines 200-205). -/
def detect_services (hostname : String) (ip : String)
    (custom_fields : List (String × String)) : List SvcConfig :=
  match firstMatch (strLower hostname) service_patterns with
  | some cfg => [cfg]
  | none => [⟨80, "web", "http"⟩]

/-- One entry of the `services` list built by `get_services_from_netbox`
(lines 153-161) and of the dict built by `add_service_manually` (lines
377-383). -/
structure Service where
  hostname : String
  ip : String
  service_type : String
  port : Nat
  protocol : String
deriving Repr, DecidableEq

/-- `self.service_templates['web']` after `str.format` substitution of
hostname/ip/port/service (lines 54-70; `{{` and `}}` denote literal braces,
written escaped here). -/
def webTemplate (hostname ip : String) (port : Nat) (service : String) : String :=
  "\n" ++ hostname ++ " \x7b\n" ++
  "    tls \x7b\n" ++
  "        dns cloudflare \x7benv.CLOUDFLARE_API_TOKEN\x7d\n" ++
  "    \x7d\n" ++
  "    reverse_proxy " ++ ip ++ ":" ++ toString port ++ " \x7b\n" ++
  "        header_up Host \x7bupstream_hostport\x7d\n" ++
  "        header_up X-Real-IP \x7bremote_host\x7d\n" ++
  "        header_up X-Forwarded-For \x7bremote_host\x7d\n" ++
  "        header_up X-Forwarded-Proto \x7bscheme\x7d\n" ++
  "    \x7d\n" ++
  "    encode gzip\n" ++
  "    log \x7b\n" ++
  "        output file /var/log/caddy/" ++ service ++ "-access.log\n" ++
  "        format json\n" ++
  "    \x7d\n" ++
  "\x7d"

/-- `self.service_templates['api']` after `str.format` substitution (lines
71-89).  The `service` argument is passed by `format` but unused by this
template, as in the source. -/
def apiTemplate (hostname ip : String) (port : Nat) (service : String) : String :=
  "\n" ++ hostname ++ " \x7b\n" ++
  "    tls \x7b\n" ++
  "        dns cloudflare \x7benv.CLOUDFLARE_API_TOKEN\x7d\n" ++
  "    \x7d\n" ++
  "    reverse_proxy " ++ ip ++ ":" ++ toString port ++ " \x7b\n" ++
  "        header_up Host \x7bupstream_hostport\x7d\n" ++
  "        header_up X-Real-IP \x7bremote_host\x7d\n" ++
  "        header_up X-Forwarded-For \x7bremote_host\x7d\n" ++
  "        header_up X-Forwarded-Proto \x7bscheme\x7d\n" ++
  "    \x7d\n" ++
  "    # API-specific headers\n" ++
  "    header \x7b\n" ++
  "        Access-Control-Allow-Origin *\n" ++
  "        Access-Control-Allow-Methods \"GET, POST, PUT, DELETE, OPTIONS\"\n" ++
  "        Access-Control-Allow-Headers \"Content-Type, Authorization\"\n" ++
  "    \x7d\n" ++
  "    encode gzip\n" ++
  "\x7d"

/-- `self.service_templates['secure']` after `str.format` substitution (lines
90-110).  The `service` argument is unused by this template, as in the
source. -/
def secureTemplate (hostname ip : String) (port : Nat) (service : String) : String :=
  "\n" ++ hostname ++ " \x7b\n" ++
  "    tls \x7b\n" ++
  "        dns cloudflare \x7benv.CLOUDFLARE_API_TOKEN\x7d\n" ++
  "    \x7d\n" ++
  "    reverse_proxy " ++ ip ++ ":" ++ toString port ++ " \x7b\n" ++
  "        header_up Host \x7bupstream_hostport\x7d\n" ++
  "        header_up X-Real-IP \x7bremote_host\x7d\n" ++
  "        header_up X-Forwarded-For \x7bremote_host\x7d\n" ++
  "        header_up X-Forwarded-Proto \x7bscheme\x7d\n" ++
  "    \x7d\n" ++
  "    # Security headers\n" ++
  "    header \x7b\n" ++
  "        Strict-Transport-Security \"max-age=31536000; includeSubDomains; preload\"\n" ++
  "        X-Frame-Options DENY\n" ++
  "        X-Content-Type-Options nosniff\n" ++
  "        X-XSS-Protection \"1; mode=block\"\n" ++
  "        Content-Security-Policy \"default-src \x27self\x27\"\n" ++
  "    \x7d\n" ++
  "    encode gzip\n" ++
  "\x7d"

/-- `self.service_templates.get(template_key, self.service_templates['web'])`
(line 213): the dict has keys web/api/secure; any other key falls back to the
web template. -/
def applyTemplate (template_key hostname ip : String) (port : Nat) (service : String) : String :=
  if template_key = "api" then apiTemplate hostname ip port service
  else if template_key = "secure" then secureTemplate hostname ip port service
  else webTemplate hostname ip port service

/-- The hostname qualification of `generate_service_config` (lines 216-219):
append the domain iff the hostname neither ends with `.domain` nor contains a
dot. -/
def qualifyHostname (domain hostname : String) : String :=
  if strEndsWith hostname ("." ++ domain) then hostname
  else if strContains hostname "." then hostname
  else hostname ++ "." ++ domain

/-- `service['hostname'].split('.')[0]` (line 225). -/
def firstComponent (s : String) : String :=
  String.mk (takeUntilChar '.' s.toList)

/-- `generate_service_config(service)` (caddy-service-manager.py lines
209-228): pick the secure template whenever the raw hostname contains
"admin", otherwise the template named by the service type; qualify the
hostname; substitute into the template. -/
def generate_service_config (domain : String) (service : Service) : String :=
  let template_key := if strContains service.hostname "admin" then "secure"
                      else service.service_type
  let hostname := qualifyHostname domain service.hostname
  applyTemplate template_key hostname service.ip service.port
    (firstComponent service.hostname)

/-- The f-string header of `generate_main_caddyfile` (lines 244-254); the
timestamp is the `datetime.now().isoformat()` value observed by the call. -/
def caddyHeader (domain timestamp : String) : String :=
  "# Auto-generated Caddyfile - " ++ timestamp ++
  "\n# Generated by Caddy Service Manager\n# DO NOT EDIT MANUALLY - Changes will be overwritten\n\n# Global configuration\n\x7b\n    email admin@" ++
  domain ++ "\n    auto_https on\n\x7d\n\n"

/-- `generate_main_caddyfile(services)` (lines 242-266): header followed by
the per-service blocks joined with a newline, in input order. -/
def generate_main_caddyfile (domain timestamp : String) (services : List Service) : String :=
  caddyHeader domain timestamp ++
    String.intercalate "\n" (services.map (generate_service_config domain))

/-- One record of the NetBox `results` array consumed by
`get_services_from_netbox` (lines 139-148).  An absent/empty `dns_name` is
modelled as `""` (Python truthiness of `ip_data.get('dns_name')`). -/
structure IpData where
  dns_name : String
  address : String
  custom_fields : List (String × String)
deriving Repr, DecidableEq

/-- The observable outcome of the NetBox HTTP fetch in
`get_services_from_netbox`: either a failure (non-200 status or a raised
exception, lines 135-137 and 166-168) or the decoded `results` array. -/
inductive FetchOutcome where
  | error
  | ok (results : List IpData)
deriving Repr, DecidableEq

/-- The per-record body of the loop in `get_services_from_netbox` (lines
139-161): skip records without a dns_name, strip the CIDR suffix from the
address, classify, and emit one `Service` entry per detected service. -/
def build_services : List IpData → List Service
  | [] => []
  | d :: rest =>
      if d.dns_name = "" then build_services rest
      else
        let hostname := d.dns_name
        let ip_address := String.mk (takeUntilChar '/' d.address.toList)
        (detect_services hostname ip_address d.custom_fields).map
          (fun s => Service.mk hostname ip_address s.ty s.port s.protocol)
        ++ build_services rest

/-- `get_services_from_netbox()` (caddy-service-manager.py lines 124-168):
returns `[]` on a failed fetch (non-200 response or exception), otherwise the
services built from the decoded records. -/
def get_services_from_netbox (outcome : FetchOutcome) : List Service :=
  match outcome with
  | .error => []
  | .ok results => build_services results

/-- The disk state owned by the reconciler: the active configuration file
`/opt/caddy/Caddyfile` (`none` = file absent), the backup directory, and the
per-service files under `/opt/caddy/services`.  Directories are association
lists of (filename, content); a repeated write to the same name shadows the
older entry, and `lookupFile` returns the most recent write. -/
structure FS where
  mainCaddyfile : Option String
  backups : List (String × String)
  serviceFiles : List (String × String)
deriving Repr, DecidableEq

/-- Read the current content of a named file in a directory listing: the
most recently written entry with that name. -/
def lookupFile (files : List (String × String)) (name : String) : Option String :=
  (files.reverse.find? (fun f => f.1 = name)).map (fun f => f.2)

/-- The external-call results observed by one reconciliation cycle:
the NetBox fetch, the base domain and the two `datetime.now()` readings
(header ISO timestamp, backup-name stamp), the verdict of the
`caddy validate` subprocess on a given candidate document, and the exit
status of `caddy reload`. -/
structure Env where
  domain : String
  nowIso : String
  nowStamp : String
  fetched : FetchOutcome
  validateOk : String → Bool
  reloadOk : Bool

/-- `backup_current_config()` (caddy-service-manager.py lines 230-240): if the
active Caddyfile exists, copy it to a timestamped file in the backup
directory and return that filename; otherwise return `""`. -/
def backup_current_config (fs : FS) (nowStamp : String) : FS × String :=
  match fs.mainCaddyfile with
  | some content =>
      let backup_file := "Caddyfile.backup." ++ nowStamp
      ({ fs with backups := fs.backups ++ [(backup_file, content)] }, backup_file)
  | none => (fs, "")

/-- The distinct return points of `update_caddy_configuration` (lines
320-370): line 329 (no services), line 337 (validation failed), line 356
(applied and reloaded), line 362 (reload failed, backup restored when one
exists).  The function itself returns only a boolean; the status records
which return statement executed. -/
inductive CycleStatus where
  | noServices
  | validationFailed
  | applied
  | activationFailedRolledBack
deriving Repr, DecidableEq

/-- The outcome of one cycle: `ok` is the boolean the Python function
returns to its caller; `status` is the return point taken. -/
structure CycleResult where
  ok : Bool
  status : CycleStatus
deriving Repr, DecidableEq

/-- `update_caddy_configuration()` (caddy-service-manager.py lines 320-370):
fetch, early-return on an empty service list, render, validate, backup,
write, reload, and on reload failure restore the backup when one was made.
`write_text` is modelled as total; the `except` branch at lines 364-370
(reached only if the write itself raises) performs the same restore and
returns the same `False` as the reload-failure branch. -/
def update_caddy_configuration (env : Env) (fs : FS) : FS × CycleResult :=
  let services := get_services_from_netbox env.fetched
  if services.isEmpty then
    (fs, ⟨false, CycleStatus.noServices⟩)
  else
    let new_config := generate_main_caddyfile env.domain env.nowIso services
    if env.validateOk new_config = false then
      (fs, ⟨false, CycleStatus.validationFailed⟩)
    else
      let backed := backup_current_config fs env.nowStamp
      let fs1 := backed.1
      let backup_file := backed.2
      let fs2 := { fs1 with mainCaddyfile := some new_config }
      if env.reloadOk then
        (fs2, ⟨true, CycleStatus.applied⟩)
      else
        if backup_file = "" then
          (fs2, ⟨false, CycleStatus.activationFailedRolledBack⟩)
        else
          match lookupFile fs2.backups backup_file with
          | some content =>
              ({ fs2 with mainCaddyfile := some content },
               ⟨false, CycleStatus.activationFailedRolledBack⟩)
          | none => (fs2, ⟨false, CycleStatus.activationFailedRolledBack⟩)

/-- The `--update` branch of `main()` (lines 409-411): process exit code 0 on
True, 1 on False. -/
def mainUpdateExitCode (env : Env) (fs : FS) : Nat :=
  if (update_caddy_configuration env fs).2.ok then 0 else 1

/-- `add_service_manually(hostname, ip, port, service_type)`
(caddy-service-manager.py lines 372-393): build the ad hoc service dict,
render its block, write it to an individual file under the services
directory, then run `update_caddy_configuration` (which regenerates the
active configuration from the NetBox fetch alone). -/
def add_service_manually (env : Env) (fs : FS) (hostname ip : String)
    (port : Nat) (service_type : String) : FS × CycleResult :=
  let service : Service := ⟨hostname, ip, service_type, port, "http"⟩
  let service_config := generate_service_config env.domain service
  let fname := replaceDotsWithUnderscores hostname ++ ".caddyfile"
  let fs1 := { fs with serviceFiles := fs.serviceFiles ++ [(fname, service_config)] }
  update_caddy_configuration env fs1

/-- How the `caddy validate` subprocess call inside `validate_caddy_config`
can end: a normal exit with a return code, or a raised exception
(`TimeoutExpired` after the 30s bound, a missing binary, ...). -/
inductive CheckerOutcome where
  | exits (returncode : Nat)
  | raises
deriving Repr, DecidableEq

/-- What one call of `validate_caddy_config` did: its boolean result, whether
the candidate was written to the scoped temporary file, whether that
temporary file was unlinked before returning, and whether the active
configuration was written. -/
structure ValidateTrace where
  ok : Bool
  tempWritten : Bool
  tempRemoved : Bool
  activeTouched : Bool
deriving Repr, DecidableEq

/-- `validate_caddy_config(config_content)` (caddy-service-manager.py lines
268-296): write the candidate to a `NamedTemporaryFile(delete=False)`, run
`caddy validate` on it, `os.unlink` the temporary file, and return
`returncode == 0`.  When the subprocess call raises (timeout or exception)
control jumps to the `except` handler at line 294, which returns False
without reaching the `os.unlink` at line 285.  The function never reads or
writes the active configuration path. -/
def validate_caddy_config (checker : CheckerOutcome) : ValidateTrace :=
  match checker with
  | .exits returncode =>
      { ok := returncode == 0, tempWritten := true, tempRemoved := true,
        activeTouched := false }
  | .raises =>
      { ok := false, tempWritten := true, tempRemoved := false,
        activeTouched := false }

/-- One host record built by `perform_network_scan` (discovery-agent.py lines
159-166); only the fields the discovery loop branches on are kept
(`hostname = none` models a failed reverse-DNS lookup). -/
structure DHost where
  ip : String
  hostname : Option String
deriving Repr, DecidableEq

/-- The external-call results observed by one `run_discovery` cycle
(discovery-agent.py): connection test, site creation, the per-network scan
results, the service-scan result size per ip, and the per-host outcomes of
the NetBox upsert (`update_netbox_ip`, lines 228-280, returning a boolean)
and the DNS sync (`sync_to_dns`, lines 282-312). -/
structure DiscoveryEnv where
  networks : List String
  netboxOk : Bool
  siteOk : Bool
  scan : String → List DHost
  serviceCount : String → Nat
  upsertOk : DHost → Bool
  dnsOk : DHost → Bool

/-- The counters of the report initialised by `generate_network_report`
(discovery-agent.py lines 314-327). -/
structure DReport where
  total_hosts : Nat
  active_hosts : Nat
  updated_hosts : Nat
  dns_synced : Nat
  services_discovered : Nat
  new_hosts : Nat
deriving Repr, DecidableEq

/-- The result of `run_discovery` (lines 329-384): an early failure with its
reason string, or a completed report.  `upsertAttempts` records, in order,
the ip of every host for which `update_netbox_ip` was invoked. -/
inductive DiscoveryResult where
  | failed (reason : String)
  | completed (report : DReport) (upsertAttempts : List String)
deriving Repr, DecidableEq

/-- The deep-scan host heuristic at discovery-agent.py line 362:
`any(port in str(host['ip']) for port in ['1', '3', '10'])`. -/
def interestingHost (ip : String) : Bool :=
  ["1", "3", "10"].any (fun p => strContains ip p)

/-- The per-host body of the discovery loop (discovery-agent.py lines
358-374): bump total, optionally deep-scan, attempt the NetBox upsert
(counting successes), attempt the DNS sync (counting successes), bump
active.  A failed upsert or sync only skips its counter increment; the loop
continues with the next host. -/
def processHost (env : DiscoveryEnv) (st : DReport × List String) (h : DHost) :
    DReport × List String :=
  let r0 := st.1
  let r1 := { r0 with total_hosts := r0.total_hosts + 1 }
  let r2 := if interestingHost h.ip then
              { r1 with services_discovered := r1.services_discovered + env.serviceCount h.ip }
            else r1
  let tr := st.2 ++ [h.ip]
  let r3 := if env.upsertOk h then { r2 with updated_hosts := r2.updated_hosts + 1 } else r2
  let r4 := if env.dnsOk h then { r3 with dns_synced := r3.dns_synced + 1 } else r3
  ({ r4 with active_hosts := r4.active_hosts + 1 }, tr)

/-- The host loop of `run_discovery` for one network's scan results. -/
def processHosts (env : DiscoveryEnv) : List DHost → DReport × List String → DReport × List String
  | [], st => st
  | h :: rest, st => processHosts env rest (processHost env st h)

/-- The network loop of `run_discovery` (lines 348-374): strip the network
name, ensure the prefix record exists (an external inventory call whose
result is not used further, lines 352-353), scan, then process each host. -/
def processNetworks (env : DiscoveryEnv) : List String → DReport × List String → DReport × List String
  | [], st => st
  | n :: rest, st => processNetworks env rest (processHosts env (env.scan (strTrim n)) st)

/-- `run_discovery()` (discovery-agent.py lines 329-384): abort on a failed
NetBox connection test or site lookup, otherwise run the network/host loops
over the zero-initialised report and mark it completed. -/
def run_discovery (env : DiscoveryEnv) : DiscoveryResult :=
  if env.netboxOk = false then DiscoveryResult.failed "netbox_connection_failed"
  else if env.siteOk = false then DiscoveryResult.failed "site_creation_failed"
  else
    let init : DReport := ⟨0, 0, 0, 0, 0, 0⟩
    let out := processNetworks env env.networks (init, [])
    DiscoveryResult.completed out.1 out.2

/-- A disk state for concrete runs: an existing active configuration, empty
backup and services directories. -/
def fsInit : FS := ⟨some "# current config\n", [], []⟩

/-- A NetBox record with a DNS name, as fetched during a cycle. -/
def netboxGrafana : IpData := ⟨"grafana", "10.0.0.2/24", []⟩

/-- A cycle in which fetch and validation succeed but the proxy reload
fails. -/
def envRolledBack : Env :=
  ⟨"doofus.co", "2025-01-01T00:00:00", "20250101-000000",
    FetchOutcome.ok [netboxGrafana], fun _ => true, false⟩

/-- A cycle in which the validator backend rejects the candidate. -/
def envRejected : Env :=
  ⟨"doofus.co", "2025-01-01T00:00:00", "20250101-000000",
    FetchOutcome.ok [netboxGrafana], fun _ => false, true⟩

/-- A cycle in which the fetch succeeds but yields no usable records. -/
def envEmptyFetch : Env :=
  ⟨"doofus.co", "2025-01-01T00:00:00", "20250101-000000",
    FetchOutcome.ok [], fun _ => true, true⟩

/-- A cycle in which the NetBox fetch itself fails (non-200 or exception). -/
def envConnFail : Env :=
  ⟨"doofus.co", "2025-01-01T00:00:00", "20250101-000000",
    FetchOutcome.error, fun _ => true, true⟩

/-- A fully successful cycle environment, used for the manual-add run. -/
def envManualAdd : Env :=
  ⟨"doofus.co", "2025-01-01T00:00:00", "20250101-000000",
    FetchOutcome.ok [netboxGrafana], fun _ => true, true⟩

/-- Three discovered hosts for a concrete discovery run. -/
def hostsThree : List DHost :=
  [⟨"10.0.0.1", some "alpha"⟩, ⟨"10.0.0.2", none⟩, ⟨"10.0.0.3", some "gamma"⟩]

/-- A discovery cycle over one network and three hosts in which the NetBox
upsert fails exactly for the host 10.0.0.2. -/
def envDiscovery : DiscoveryEnv :=
  ⟨["10.0.0.0/24"], true, true,
    fun n => if n = "10.0.0.0/24" then hostsThree else [],
    fun _ => 0,
    fun h => !(h.ip = "10.0.0.2"),
    fun h => h.hostname.isSome⟩

theorem firstMatch_eq_of_first (h : String) (rules : List (String × SvcConfig))
    (i : Nat) (hi : i < rules.length)
    (hm : strContains h (rules.get ⟨i, hi⟩).1 = true)
    (hmin : ∀ k (hk : k < rules.length), k < i → strContains h (rules.get ⟨k, hk⟩).1 = false) :
    firstMatch h rules = some (rules.get ⟨i, hi⟩).2 := by
  induction rules generalizing i with
  | nil => exact absurd hi (Nat.not_lt_zero i)
  | cons r rest ih =>
    obtain ⟨pat, cfg⟩ := r
    cases i with
    | zero =>
      simp only [List.get] at hm ⊢
      simp [firstMatch, hm]
    | succ i =>
      have h0 : strContains h pat = false :=
        hmin 0 (Nat.succ_pos _) (Nat.succ_pos _)
      simp only [List.get] at hm ⊢
      simp only [firstMatch, h0, Bool.false_eq_true, if_false]
      exact ih i (Nat.lt_of_succ_lt_succ hi) hm
        (fun k hk hki => hmin (k + 1) (Nat.succ_lt_succ hk) (Nat.succ_lt_succ hki))

theorem detect_services_len (hostname ip : String) (cf : List (String × String)) :
    (detect_services hostname ip cf).length = 1 := by
  cases h : firstMatch (strLower hostname) service_patterns <;>
    simp [detect_services, h]

theorem build_services_length (results : List IpData) :
    (build_services results).length =
      (results.filter (fun d => !(d.dns_name = ""))).length := by
  induction results with
  | nil => rfl
  | cons d rest ih =>
    by_cases h : d.dns_name = ""
    · simp [build_services, h, ih, List.filter_cons]
    · simp [build_services, h, ih, List.filter_cons, detect_services_len]
      omega

theorem lookupFile_append_last (files : List (String × String)) (n c : String) :
    lookupFile (files ++ [(n, c)]) n = some c := by
  simp [lookupFile, List.reverse_append, List.find?_cons_of_pos]

theorem backupName_ne_empty (s : String) : ¬("Caddyfile.backup." ++ s = "") := by
  intro h
  have h2 : ("Caddyfile.backup." ++ s).data = ([] : List Char) := congrArg String.data h
  simp [String.append] at h2

theorem length_filter_add_length_filter_not {α : Type} (p : α → Bool) (l : List α) :
    (l.filter p).length + (l.filter (fun a => !(p a))).length = l.length := by
  induction l with
  | nil => rfl
  | cons a l ih => by_cases h : p a <;> simp [List.filter_cons, h] <;> omega

theorem processHost_fields (env : DiscoveryEnv) (st : DReport × List String) (h : DHost) :
    (processHost env st h).1.total_hosts = st.1.total_hosts + 1 ∧
    (processHost env st h).1.updated_hosts =
      st.1.updated_hosts + (if env.upsertOk h then 1 else 0) ∧
    (processHost env st h).2 = st.2 ++ [h.ip] := by
  simp only [processHost]
  split <;> split <;> split <;> simp

theorem processHosts_spec (env : DiscoveryEnv) (hosts : List DHost)
    (r : DReport) (tr : List String) :
    (processHosts env hosts (r, tr)).1.total_hosts = r.total_hosts + hosts.length ∧
    (processHosts env hosts (r, tr)).1.updated_hosts =
      r.updated_hosts + (hosts.filter env.upsertOk).length ∧
    (processHosts env hosts (r, tr)).2 = tr ++ hosts.map (fun h => h.ip) := by
  induction hosts generalizing r tr with
  | nil => simp [processHosts]
  | cons h rest ih =>
    obtain ⟨ht, hu, htr⟩ := processHost_fields env (r, tr) h
    rcases hX : processHost env (r, tr) h with ⟨s, str⟩
    rw [hX] at ht hu htr
    simp only at ht hu htr
    obtain ⟨it, iu, itr⟩ := ih s str
    have hstep : processHosts env (h :: rest) (r, tr) = processHosts env rest (s, str) := by
      simp only [processHosts, hX]
    rw [hstep]
    refine ⟨?_, ?_, ?_⟩
    · rw [it, ht, List.length_cons]; omega
    · rw [iu, hu, List.filter_cons]
      by_cases hup : env.upsertOk h <;> simp [hup] <;> omega
    · rw [itr, htr, List.map_cons]
      simp

/-- C3: for every hostname whose lowercase form contains the match tokens of
two or more classification rules, `detect_services` selects only the rule
declared earliest in the fixed `service_patterns` sequence: if rule `i`
matches and no earlier rule matches, the classifier returns exactly that
rule's configuration, regardless of any later rules (such as a rule `j > i`)
that also match. -/
theorem first_declared_rule_wins (hostname ip : String) (cf : List (String × String))
    (i : Nat) (hi : i < service_patterns.length)
    (hm : strContains (strLower hostname) (service_patterns.get ⟨i, hi⟩).1 = true)
    (hmin : ∀ k (hk : k < service_patterns.length), k < i →
      strContains (strLower hostname) (service_patterns.get ⟨k, hk⟩).1 = false) :
    detect_services hostname ip cf = [(service_patterns.get ⟨i, hi⟩).2] := by
  simp [detect_services, firstMatch_eq_of_first (strLower hostname) service_patterns i hi hm hmin]

/-- C3 witness: "gitlab-api.example" contains the tokens of both the "gitlab"
rule (index 0) and the "api" rule (index 6); the classifier returns the
"gitlab" rule's web/port-80 configuration because it is declared first. -/
theorem first_declared_rule_wins_witness :
    strContains (strLower "gitlab-api.example") "gitlab" = true ∧
    strContains (strLower "gitlab-api.example") "api" = true ∧
    detect_services "gitlab-api.example" "10.0.0.7" [] = [⟨80, "web", "http"⟩] :=
  ⟨by decide, by decide,
    first_declared_rule_wins "gitlab-api.example" "10.0.0.7" [] 0 (by decide) (by decide)
      (fun k hk hlt => absurd hlt (Nat.not_lt_zero k))⟩

/-- C4 counterexample: the hostname "api-admin.example" contains "admin", but
the classifier returns the "api" rule's category because "api" is declared
before "admin" in the rule table: no secureAdmin override happens inside the
classifier, contradicting the claim that the override is applied before the
classifier returns, independently of rule order. -/
theorem admin_override_not_in_classifier :
    strContains (strLower "api-admin.example") "admin" = true ∧
    detect_services "api-admin.example" "10.0.0.1" [] = [⟨8080, "api", "http"⟩] ∧
    detect_services "api-admin.example" "10.0.0.1" [] ≠ [⟨8080, "secure", "http"⟩] := by
  refine ⟨by decide, by decide, by decide⟩

/-- C4 amended: the admin override lives in the renderer, not the classifier.
For every service whose raw hostname contains "admin",
`generate_service_config` selects the secure template regardless of the
descriptor's category: its output is independent of the `service_type` field
and equals the secure template applied to the qualified hostname. -/
theorem admin_override_applied_in_renderer (domain : String) (s : Service) (t : String)
    (h : strContains s.hostname "admin" = true) :
    generate_service_config domain s =
      generate_service_config domain { s with service_type := t } ∧
    generate_service_config domain s =
      secureTemplate (qualifyHostname domain s.hostname) s.ip s.port
        (firstComponent s.hostname) := by
  constructor <;> simp [generate_service_config, h, applyTemplate]

/-- C4 amended witness: "dbadmin.example" contains "admin", so the rendered
block is the secure-template block whatever category the descriptor carries
(here category web, compared with category api). -/
theorem admin_override_applied_in_renderer_witness :
    strContains "dbadmin.example" "admin" = true ∧
    (generate_service_config "doofus.co" ⟨"dbadmin.example", "10.0.0.9", "web", 8081, "http"⟩ =
      generate_service_config "doofus.co" ⟨"dbadmin.example", "10.0.0.9", "api", 8081, "http"⟩ ∧
    generate_service_config "doofus.co" ⟨"dbadmin.example", "10.0.0.9", "web", 8081, "http"⟩ =
      secureTemplate (qualifyHostname "doofus.co" "dbadmin.example") "10.0.0.9" 8081
        (firstComponent "dbadmin.example")) :=
  ⟨by decide,
    admin_override_applied_in_renderer "doofus.co"
      ⟨"dbadmin.example", "10.0.0.9", "web", 8081, "http"⟩ "api" (by decide)⟩

/-- C6: for a fixed descriptor list and domain, two renders differing only in
the generation timestamp produce documents that share one byte-identical
blocks section (only the header differs), and that section is the per-service
blocks joined in input order (block `i` comes from descriptor `i`). -/
theorem render_blocks_deterministic (domain t1 t2 : String) (services : List Service) :
    ∃ blocks : String,
      generate_main_caddyfile domain t1 services = caddyHeader domain t1 ++ blocks ∧
      generate_main_caddyfile domain t2 services = caddyHeader domain t2 ++ blocks ∧
      blocks = String.intercalate "\n" (services.map (generate_service_config domain)) ∧
      ∀ i (hi : i < services.length),
        (services.map (generate_service_config domain)).get
            ⟨i, by simpa using hi⟩ =
          generate_service_config domain (services.get ⟨i, hi⟩) :=
  ⟨String.intercalate "\n" (services.map (generate_service_config domain)),
    rfl, rfl, rfl, fun i hi => by simp⟩

/-- C9: the validator writes the candidate only to the scoped temporary file
and never touches the active configuration; but the temporary file is NOT
removed on every exit path: when the checker invocation raises (timeout after
the 30s bound, missing binary), control jumps to the except handler, which
returns False without reaching the `os.unlink` call, leaking the temporary
file.  This theorem evaluates the code at that failing input. -/
theorem validate_temp_leak_on_exception :
    (validate_caddy_config CheckerOutcome.raises).tempWritten = true ∧
    (validate_caddy_config CheckerOutcome.raises).tempRemoved = false ∧
    (validate_caddy_config CheckerOutcome.raises).ok = false ∧
    (∀ c, (validate_caddy_config c).activeTouched = false) := by
  refine ⟨rfl, rfl, rfl, ?_⟩
  intro c
  cases c <;> rfl

/-- C10: for every input, the classifier returns a list of exactly one
service descriptor (the loop stops at the first matching rule, and a default
web/port-80 descriptor is produced when no rule matches); consequently
`get_services_from_netbox` yields exactly one service entry per fetched
record that carries a DNS name. -/
theorem classifier_yields_exactly_one (hostname ip : String)
    (cf : List (String × String)) (results : List IpData) :
    (detect_services hostname ip cf).length = 1 ∧
    (get_services_from_netbox (FetchOutcome.ok results)).length =
      (results.filter (fun d => !(d.dns_name = ""))).length :=
  ⟨detect_services_len hostname ip cf, build_services_length results⟩

theorem services_isEmpty_false (env : Env)
    (hne : get_services_from_netbox env.fetched ≠ []) :
    (get_services_from_netbox env.fetched).isEmpty = false := by
  cases hg : get_services_from_netbox env.fetched with
  | nil => exact absurd hg hne
  | cons a l => rfl

/-- C2: whenever the validator backend rejects the candidate document in a
cycle that reached validation, the cycle returns at the validationFailed
point and the entire disk state — active configuration file, backup
directory, and service files — is exactly what it was before the cycle. -/
theorem validation_failure_leaves_state_untouched (env : Env) (fs : FS)
    (hne : get_services_from_netbox env.fetched ≠ [])
    (hv : env.validateOk (generate_main_caddyfile env.domain env.nowIso
      (get_services_from_netbox env.fetched)) = false) :
    update_caddy_configuration env fs = (fs, ⟨false, CycleStatus.validationFailed⟩) := by
  simp [update_caddy_configuration, services_isEmpty_false env hne, hv]

/-- C2 witness: a concrete cycle whose validator rejects every candidate
leaves the concrete initial disk state unchanged. -/
theorem validation_failure_leaves_state_untouched_witness :
    get_services_from_netbox envRejected.fetched ≠ [] ∧
    envRejected.validateOk (generate_main_caddyfile envRejected.domain envRejected.nowIso
      (get_services_from_netbox envRejected.fetched)) = false ∧
    update_caddy_configuration envRejected fsInit =
      (fsInit, ⟨false, CycleStatus.validationFailed⟩) :=
  ⟨by decide, rfl,
    validation_failure_leaves_state_untouched envRejected fsInit (by decide) rfl⟩

/-- C1: if the proxy reload fails after the new configuration has been
written over the active path, and the active configuration existed before
the cycle (so a backup was just created), the cycle restores the just-created
backup: afterwards the active configuration content equals the pre-cycle
content, and the cycle exits at the activationFailedRolledBack return
point. -/
theorem rollback_restores_previous_config (env : Env) (fs : FS) (pre : String)
    (hpre : fs.mainCaddyfile = some pre)
    (hne : get_services_from_netbox env.fetched ≠ [])
    (hv : env.validateOk (generate_main_caddyfile env.domain env.nowIso
      (get_services_from_netbox env.fetched)) = true)
    (hr : env.reloadOk = false) :
    (update_caddy_configuration env fs).1.mainCaddyfile = some pre ∧
    (update_caddy_configuration env fs).2 =
      ⟨false, CycleStatus.activationFailedRolledBack⟩ := by
  have hlook := lookupFile_append_last fs.backups ("Caddyfile.backup." ++ env.nowStamp) pre
  simp [update_caddy_configuration, services_isEmpty_false env hne, hv, hr,
    backup_current_config, hpre, backupName_ne_empty env.nowStamp, hlook]

/-- C1 witness: a concrete cycle with an existing active configuration,
successful validation, and failing reload ends with the pre-cycle active
content restored and the rolled-back status. -/
theorem rollback_restores_previous_config_witness :
    fsInit.mainCaddyfile = some "# current config\n" ∧
    get_services_from_netbox envRolledBack.fetched ≠ [] ∧
    envRolledBack.reloadOk = false ∧
    ((update_caddy_configuration envRolledBack fsInit).1.mainCaddyfile =
        some "# current config\n" ∧
      (update_caddy_configuration envRolledBack fsInit).2 =
        ⟨false, CycleStatus.activationFailedRolledBack⟩) :=
  ⟨rfl, by decide, rfl,
    rollback_restores_previous_config envRolledBack fsInit "# current config\n"
      rfl (by decide) rfl rfl⟩

/-- C5 counterexample: an empty fetched service set does NOT end the cycle
with a distinct non-error outcome.  The function returns False — exactly what
it returns for a validation failure — so the CLI exits 1, and a connectivity
failure (which also yields an empty list from `get_services_from_netbox`)
produces the very same result: the noServices case is reported as a failure
and is indistinguishable from connectivity failure. -/
theorem empty_services_reported_as_failure :
    (update_caddy_configuration envEmptyFetch fsInit).2.ok = false ∧
    mainUpdateExitCode envEmptyFetch fsInit = 1 ∧
    update_caddy_configuration envEmptyFetch fsInit =
      update_caddy_configuration envConnFail fsInit ∧
    (update_caddy_configuration envRejected fsInit).2.ok =
      (update_caddy_configuration envEmptyFetch fsInit).2.ok := by
  refine ⟨rfl, rfl, rfl, by decide⟩

/-- C5 amended: when the fetch yields an empty service set (including when
the fetch itself failed, which also yields the empty list), the cycle
terminates at its distinct early-return point without touching any disk
state, but it returns False to the caller — reported as a failure (exit code
1), not as a distinct non-error outcome. -/
theorem empty_services_early_return (env : Env) (fs : FS)
    (h : get_services_from_netbox env.fetched = []) :
    update_caddy_configuration env fs = (fs, ⟨false, CycleStatus.noServices⟩) := by
  simp [update_caddy_configuration, h]

/-- C5 amended witness: the concrete empty-fetch cycle takes the early
return, leaves the disk untouched, and reports False. -/
theorem empty_services_early_return_witness :
    get_services_from_netbox envEmptyFetch.fetched = [] ∧
    update_caddy_configuration envEmptyFetch fsInit =
      (fsInit, ⟨false, CycleStatus.noServices⟩) :=
  ⟨rfl, empty_services_early_return envEmptyFetch fsInit rfl⟩

set_option maxRecDepth 100000 in
/-- C7: evaluating `add_service_manually` at a concrete failing input.  With
the inventory containing only the grafana record and every external call
succeeding, manually adding the service "adhoc" returns success, yet the
active configuration written by the cycle contains no occurrence of "adhoc":
the ad hoc block is written only to an individual file under the services
directory, which the generated main configuration never imports.  The claim
that the applied configuration is the current set with the ad hoc descriptor
merged in does not hold of the code. -/
theorem manual_add_absent_from_active_config :
    (add_service_manually envManualAdd fsInit "adhoc" "10.0.0.5" 9000 "web").2.ok = true ∧
    strContains
      (((add_service_manually envManualAdd fsInit "adhoc" "10.0.0.5" 9000 "web").1.mainCaddyfile).getD "")
      "adhoc" = false ∧
    (lookupFile
      (add_service_manually envManualAdd fsInit "adhoc" "10.0.0.5" 9000 "web").1.serviceFiles
      "adhoc.caddyfile" =
      some (generate_service_config "doofus.co" ⟨"adhoc", "10.0.0.5", "web", 9000, "http"⟩)) ∧
    strContains
      (generate_service_config "doofus.co" ⟨"adhoc", "10.0.0.5", "web", 9000, "http"⟩)
      "adhoc" = true := by
  refine ⟨rfl, by decide, by decide, by decide⟩

/-- C8: in a discovery cycle over one network whose scan finds `hosts`, if
the NetBox upsert fails for exactly one host, every host's upsert is still
attempted (the attempt trace lists every host ip, in order), the cycle
completes rather than aborting, and the report's counters show exactly one
partial failure: updated_hosts is one less than total_hosts. -/
theorem discovery_partial_tolerance (env : DiscoveryEnv) (net : String) (hosts : List DHost)
    (hnb : env.netboxOk = true) (hsite : env.siteOk = true)
    (hnet : env.networks = [net])
    (hscan : env.scan (strTrim net) = hosts)
    (hfail : (hosts.filter (fun h => !(env.upsertOk h))).length = 1) :
    ∃ r tr, run_discovery env = DiscoveryResult.completed r tr ∧
      tr = hosts.map (fun h => h.ip) ∧
      r.total_hosts = hosts.length ∧
      r.updated_hosts + 1 = hosts.length := by
  obtain ⟨ht, hu, htr⟩ := processHosts_spec env hosts ⟨0, 0, 0, 0, 0, 0⟩ []
  simp only [show (⟨0, 0, 0, 0, 0, 0⟩ : DReport).total_hosts = 0 from rfl,
    show (⟨0, 0, 0, 0, 0, 0⟩ : DReport).updated_hosts = 0 from rfl,
    Nat.zero_add] at ht hu
  have hrun : run_discovery env =
      DiscoveryResult.completed (processHosts env hosts (⟨0, 0, 0, 0, 0, 0⟩, [])).1
        (processHosts env hosts (⟨0, 0, 0, 0, 0, 0⟩, [])).2 := by
    simp [run_discovery, hnb, hsite, hnet, processNetworks, hscan]
  have hsum := length_filter_add_length_filter_not env.upsertOk hosts
  refine ⟨_, _, hrun, ?_, ?_, ?_⟩
  · simpa using htr
  · simpa using ht
  · rw [hu]; omega

/-- C8 witness: three hosts on one network, with the upsert failing exactly
for 10.0.0.2: the cycle completes, all three upserts are attempted in order,
and the report counts two updated hosts out of three. -/
theorem discovery_partial_tolerance_witness :
    envDiscovery.networks = ["10.0.0.0/24"] ∧
    envDiscovery.scan (strTrim "10.0.0.0/24") = hostsThree ∧
    (hostsThree.filter (fun h => !(envDiscovery.upsertOk h))).length = 1 ∧
    (∃ r tr, run_discovery envDiscovery = DiscoveryResult.completed r tr ∧
      tr = hostsThree.map (fun h => h.ip) ∧
      r.total_hosts = hostsThree.length ∧
      r.updated_hosts + 1 = hostsThree.length) :=
  ⟨rfl, by decide, by decide,
    discovery_partial_tolerance envDiscovery "10.0.0.0/24" hostsThree rfl rfl rfl
      (by decide) (by decide)⟩
